import Mathlib

/-!
# Verification of the Memphis Tours ERP → Google Sheets sync system

Shallow embedding of the two Python source files
(`robust_sync.py` and `exact_order_sheet_setup.py`) and proofs about the
claims of the specification.

Modelling conventions:
* Python dicts of string keys/values become association lists
  (`List (String × String)`); `d.get(k, default)` becomes `dictGet`.
* Python substring containment (`'x' in s`) becomes `strIn`.
* Network and filesystem effects become explicit parameters describing
  their outcome; whether a call was issued is returned as a `Bool`.
* The spreadsheet is a list of data rows (each a list of cell strings);
  `gspread`'s `get_all_records` pairs each row with the header row.

The file lists all definitions first, then all theorems.
-/

/-- Model of `d.get(k, dflt)` on a Python dict, as an association list:
the value of the first pair whose key equals `k`, else `dflt`. -/
def dictGet (d : List (String × String)) (k : String) (dflt : String) : String :=
  match d.find? (fun p => p.1 == k) with
  | some p => p.2
  | none => dflt

/-- Containment of `sub` as a contiguous sublist, executable
(Python's `sub in s` for strings, on the character lists). -/
def containsSub (sub : List Char) : List Char → Bool
  | [] => sub.isEmpty
  | c :: rest => sub.isPrefixOf (c :: rest) || containsSub sub rest

/-- Model of Python `sub in s` for strings. -/
def strIn (sub s : String) : Bool :=
  containsSub sub.data s.data

/-- Model of Python `s.lower()` (ASCII — every string this program
lowercases is ASCII), characterwise on the underlying character list. -/
def lowerStr (s : String) : String :=
  ⟨s.data.map Char.toLower⟩

/-!
## `score_sales_agent` (robust_sync.py, lines 127–157)

The base-scoring `if/elif/else` (lines 134–142) is factored out as
`base_score_rec` so that the "base score before status adjustment" is
nameable; `score_sales_agent` then applies the status adjustment
(lines 144–151) exactly as in the source.  `lead_status` may be Python
`None`, modelled as `Option String`; `str(lead_status).lower() if
lead_status else ''` collapses to lowering the contained string (for
`None` or `""` both give `""`).  Python ints are `Int`.
-/

/-- Lines 134–142 of robust_sync.py: the base score and recommendation
from `communications_count` alone. -/
def base_score_rec (communications_count : Int) : Int × String :=
  if communications_count = 0 then
    (3, "No response from agent yet")
  else if communications_count = 1 then
    (6, "Initial contact made, needs follow-up")
  else
    (8, "Active communication maintained")

/-- Lines 127–153 of robust_sync.py, non-error path (the `except` arm
returns `(5, "Error calculating score")` and is not reachable for these
total operations). -/
def score_sales_agent (communications_count : Int) (lead_status : Option String) :
    Int × String :=
  let sr := base_score_rec communications_count
  let score := sr.1
  let recommendation := sr.2
  let status := lowerStr (lead_status.getD "")
  if strIn "confirmed" status then
    (min 10 (score + 2), "Lead successfully converted")
  else if strIn "new" status && decide (communications_count > 0) then
    (max 1 (score - 1), "Response needed for new lead")
  else
    (score, recommendation)

/-!
## `get_ip_geolocation` (robust_sync.py, lines 159–183)

The single `requests.get` is modelled by a function from the request URL
to its outcome; the second component of the result records whether a
network call was issued at all.
-/

/-- The geolocation triple returned by `get_ip_geolocation`. -/
structure GeoResult where
  country : String
  region : String
  city : String
deriving DecidableEq

/-- The all-`"N/A"` fallback result. -/
def geoNA : GeoResult := ⟨"N/A", "N/A", "N/A"⟩

/-- Outcome of one `requests.get`: a response carrying a status code and a
JSON object body, or a raised exception (timeout / transport error). -/
inductive HttpOutcome where
  | response (status : Nat) (json : List (String × String))
  | exn
deriving DecidableEq

/-- The request URL built on line 166 of robust_sync.py. -/
def geo_url (ip_address : String) : String :=
  "https://ipapi.co/" ++ ip_address ++ "/json/"

/-- Lines 159–183 of robust_sync.py.  `net` gives the outcome of the HTTP GET
for a URL; the `Bool` in the result is `true` iff a network call was
issued.  Python's `not ip_address` is true exactly for the empty string. -/
def get_ip_geolocation (ip_address : String) (net : String → HttpOutcome) :
    GeoResult × Bool :=
  if ip_address = "" ∨ ip_address = "N/A" then
    ({ country := "N/A", region := "N/A", city := "N/A" }, false)
  else
    match net (geo_url ip_address) with
    | .response status data =>
        if status = 200 then
          ({ country := dictGet data "country_name" "N/A",
             region := dictGet data "region" "N/A",
             city := dictGet data "city" "N/A" }, true)
        else
          (geoNA, true)
    | .exn => (geoNA, true)

/-!
## `check_profitability` (robust_sync.py, lines 185–206)
-/

/-- Lines 185–206 of robust_sync.py, non-error path: collect the flag list
in order (solo traveler, shore excursion, short duration) and join with
`"; "`, or report "No issues identified" when empty. -/
def check_profitability (lead_data : List (String × String)) : String :=
  let pax := lowerStr (dictGet lead_data "pax" "")
  let soloFlags : List String :=
    if pax = "1" ∨ strIn "solo" pax = true then ["Solo traveler (1 PAX)"] else []
  let client_name := lowerStr (dictGet lead_data "client_name" "")
  let shoreFlags : List String :=
    if strIn "shore" client_name = true ∨ strIn "excursion" client_name = true then
      ["Shore excursion"]
    else []
  let shortFlags : List String :=
    if strIn "day trip" client_name = true ∨ strIn "half day" client_name = true then
      ["Short duration trip"]
    else []
  let flags := soloFlags ++ shoreFlags ++ shortFlags
  if flags.isEmpty then "No issues identified" else String.intercalate "; " flags

/-!
## `check_prerequisites` (robust_sync.py, lines 41–87)
-/

/-- Outcome of the connectivity probe
`requests.get('https://www.google.com', timeout=10)`. -/
inductive ConnOutcome where
  | response (status : Nat)
  | exn
deriving DecidableEq

/-- Outcomes of the filesystem, import and network checks that
`check_prerequisites` consults. -/
structure PrereqEnv where
  service_account_file_exists : Bool
  service_account_valid_json : Bool
  package_available : String → Bool
  connectivity : ConnOutcome

/-- Line 61 of robust_sync.py. -/
def required_packages : List String := ["gspread", "google", "requests"]

/-- Lines 41–87 of robust_sync.py.  The per-package `for` loop returning
`False` at the first missing import is the conjunction over the fixed
list.  A connectivity response with a non-200 status only logs a warning
and still falls through to `return True`; only a raised exception on the
probe returns `False`. -/
def check_prerequisites (env : PrereqEnv) : Bool :=
  if !env.service_account_file_exists then false
  else if !env.service_account_valid_json then false
  else if !(required_packages.all env.package_available) then false
  else
    match env.connectivity with
    | .response _ => true
    | .exn => false

/-- A concrete environment in which everything is fine except that the
`gspread` package is unavailable. -/
def prereqEnvMissingPackage : PrereqEnv :=
  { service_account_file_exists := true
    service_account_valid_json := true
    package_available := fun p => !(p == "gspread")
    connectivity := ConnOutcome.response 200 }

/-!
## The 55-column schema and the sync orchestrator

`exact_order_headers` is the header list of
`setup_exact_order_headers` (exact_order_sheet_setup.py, lines 36–107);
`row_data` is the positional row built per lead in
`sync_to_google_sheets` (robust_sync.py, lines 337–393).  The sheet is
modelled as its list of data rows (each a list of cell strings) under
that header row; `gspread`'s `get_all_records` pairs each row with the
headers.
-/

/-- A lead record: a Python dict of string fields. -/
abbrev Lead := List (String × String)

/-- Lines 36–107 of exact_order_sheet_setup.py: the 55 headers, in order. -/
def exact_order_headers : List String :=
  ["#", "Hub", "Client Name", "Nationality", "Email", "Operator",
   "File Status", "Arrival", "Departure", "Pax", "Lead / Operation",
   "Request Channel", "Communication", "Medium", "Offered Income",
   "Offered Income (USD)",
   "Actual Paid Amount", "Actual Paid Amount (USD)", "Remaining Payment",
   "Remaining Payment (USD)", "Submission Date",
   "Confirmation Date", "Company", "Department", "Product Title",
   "UTM Campaign",
   "Initial Price", "Device Type",
   "Client Phone", "File No", "Request Token", "Sales Person",
   "Request Status", "Source", "VIP Status", "Loyalty Program", "Group",
   "Has Int. Flight", "Single Room", "Double Room", "Triple Room",
   "Family Room", "Int.Flight Amount", "Int.Flight Currency",
   "Agent / Group Discount",
   "Agent Score", "Agent Recommendation", "IP Country", "IP State/Region",
   "IP City", "Profitability Flag", "Communication Count", "Last Updated",
   "Lead ID", "Lead URL"]

/-- Lines 26–116 of exact_order_sheet_setup.py, at the level of the sheet's
cell contents: `worksheet.clear()` empties the sheet, then
`insert_row(exact_order_headers, 1)` makes the header list row 1 (the
subsequent bold/background formatting changes no cell values). -/
def setup_exact_order_headers (_prior : List (List String)) : List (List String) :=
  let cleared : List (List String) := []
  exact_order_headers :: cleared

/-- Line 334 of robust_sync.py: the dedup key of an incoming lead. -/
def lead_token (lead : Lead) : String :=
  dictGet lead "request_token" ""

/-- Lines 337–393 of robust_sync.py: the 55-field positional row for one
lead. -/
def row_data (lead : Lead) : List String :=
  [dictGet lead "row_number" "",
   dictGet lead "hub" "",
   dictGet lead "client_name" "",
   dictGet lead "nationality" "",
   dictGet lead "email" "",
   dictGet lead "operator" "",
   dictGet lead "file_status" "",
   dictGet lead "arrival" "",
   dictGet lead "departure" "",
   dictGet lead "pax" "",
   dictGet lead "lead_operation" "",
   dictGet lead "request_channel" "",
   dictGet lead "communication" "",
   dictGet lead "medium" "",
   dictGet lead "offered_income" "",
   dictGet lead "offered_income_usd" "",
   dictGet lead "actual_paid_amount" "",
   dictGet lead "actual_paid_amount_usd" "",
   dictGet lead "remaining_payment" "",
   dictGet lead "remaining_payment_usd" "",
   dictGet lead "submission_date" "",
   dictGet lead "confirmation_date" "",
   dictGet lead "company" "",
   dictGet lead "department" "",
   dictGet lead "product_title" "",
   dictGet lead "utm_campaign" "",
   dictGet lead "initial_price" "",
   dictGet lead "device_type" "",
   dictGet lead "client_phone" "",
   dictGet lead "file_no" "",
   dictGet lead "request_token" "",
   dictGet lead "sales_person" "",
   dictGet lead "request_status" "",
   dictGet lead "source" "",
   dictGet lead "vip_status" "",
   dictGet lead "loyalty_program" "",
   dictGet lead "group" "",
   dictGet lead "has_int_flight" "",
   dictGet lead "single_room" "",
   dictGet lead "double_room" "",
   dictGet lead "triple_room" "",
   dictGet lead "family_room" "",
   dictGet lead "int_flight_amount" "",
   dictGet lead "int_flight_currency" "",
   dictGet lead "agent_group_discount" "",
   dictGet lead "agent_score" "",
   dictGet lead "agent_recommendation" "",
   dictGet lead "ip_country" "",
   dictGet lead "ip_region" "",
   dictGet lead "ip_city" "",
   dictGet lead "profitability_flag" "",
   dictGet lead "communications_count" "",
   dictGet lead "last_updated" "",
   dictGet lead "lead_id" "",
   dictGet lead "lead_url" ""]

/-- One `gspread` record for a data row under the standard header row:
each header paired with the corresponding cell (a missing cell reads as
the `.get` default `""`, exactly as in `dictGet`). -/
def get_record (row : List String) : List (String × String) :=
  exact_order_headers.zip row

/-- Model of `sheet.get_all_records()` (robust_sync.py, line 323). -/
def get_all_records (rows : List (List String)) : List (List (String × String)) :=
  rows.map get_record

/-- Line 324 of robust_sync.py: the token column of one existing row. -/
def row_token (row : List String) : String :=
  dictGet (get_record row) "Request Token" ""

/-- Lines 322–328 of robust_sync.py: the existing-token set (membership in
the Python set is membership in this list). -/
def existing_tokens_of (sheet : List (List String)) : List String :=
  (get_all_records sheet).map (fun row => dictGet row "Request Token" "")

/-- Lines 330–399 of robust_sync.py: the `for` loop over incoming leads,
producing the batch of new rows (in sheet-append order) and
`updated_count`.  The dedup test consults only the pre-read token set:
it is never extended during the loop. -/
def sync_new_rows (existing_tokens : List String) : List Lead → List (List String) × Nat
  | [] => ([], 0)
  | lead :: rest =>
    let pr := sync_new_rows existing_tokens rest
    if existing_tokens.contains (lead_token lead) then pr
    else (row_data lead :: pr.1, pr.2 + 1)

/-- Lines 312–416 of robust_sync.py, at the level of the sheet state.
`readOk` is whether `get_all_records` succeeds (on failure the token set
is empty and the sync proceeds); `appendOk` is whether `append_rows`
succeeds (on failure the function reports 0).  Returns the resulting
sheet rows and the reported count. -/
def sync_to_google_sheets (readOk appendOk : Bool) (sheet : List (List String))
    (leads_data : List Lead) : List (List String) × Nat :=
  let existing_tokens : List String :=
    if readOk then existing_tokens_of sheet else []
  let pr := sync_new_rows existing_tokens leads_data
  if pr.1.isEmpty then (sheet, pr.2)
  else if appendOk then (sheet ++ pr.1, pr.2)
  else (sheet, 0)

/-- A minimal lead record carrying only a request token. -/
def leadTok (t : String) : Lead := [("request_token", t)]

/-- A sheet already containing one row whose token is "A". -/
def sheetWithA : List (List String) := [row_data (leadTok "A")]

/-- Number of rows of a sheet whose "Request Token" column holds `t`. -/
def count_token (rows : List (List String)) (t : String) : Nat :=
  rows.countP (fun r => row_token r == t)

/-!
## Theorems

First sanity evaluations and shared helper lemmas, then one theorem per
claim (with a witness or counterexample where required).
-/

example : score_sales_agent 0 (some "New Request") = (3, "No response from agent yet") := by
  decide

example : score_sales_agent 1 (some "New Request") = (5, "Response needed for new lead") := by
  decide

example : score_sales_agent 2 (some "Confirmed") = (10, "Lead successfully converted") := by
  decide

example : base_score_rec (-1) = (8, "Active communication maintained") := by decide

/-- The row built for a lead carries the lead's own token in the
"Request Token" column. -/
theorem row_token_row_data (lead : Lead) :
    row_token (row_data lead) = lead_token lead := rfl

/-- Reading the existing tokens is extracting `row_token` per row. -/
theorem existing_tokens_of_eq (sheet : List (List String)) :
    existing_tokens_of sheet = sheet.map row_token := by
  simp only [existing_tokens_of, get_all_records, List.map_map]
  rfl

/-- The dedup loop keeps exactly the leads whose token is absent from the
pre-read token set, in order. -/
theorem sync_new_rows_eq (ex : List String) (leads : List Lead) :
    sync_new_rows ex leads =
      ((leads.filter (fun l => !(ex.contains (lead_token l)))).map row_data,
       (leads.filter (fun l => !(ex.contains (lead_token l)))).length) := by
  induction leads with
  | nil => rfl
  | cons lead rest ih =>
      by_cases h : lead_token lead ∈ ex <;>
        simp [sync_new_rows, ih, List.filter_cons, h]

/-- A successful run (read and append both succeed) appends exactly the
rows of the kept leads and reports their number. -/
theorem sync_ok_run (sheet : List (List String)) (leads : List Lead) :
    sync_to_google_sheets true true sheet leads =
      (sheet ++ (leads.filter
          (fun l => !((sheet.map row_token).contains (lead_token l)))).map row_data,
       (leads.filter
          (fun l => !((sheet.map row_token).contains (lead_token l)))).length) := by
  by_cases hf :
      leads.filter (fun l => !((sheet.map row_token).contains (lead_token l))) = []
  · simp [sync_to_google_sheets, existing_tokens_of_eq, sync_new_rows_eq, hf]
  · simp only [List.filter_eq_nil_iff] at hf
    push_neg at hf
    simp only [Bool.not_eq_true', Bool.not_eq_false] at hf
    simp [sync_to_google_sheets, existing_tokens_of_eq, sync_new_rows_eq,
      List.isEmpty_iff, List.filter_eq_nil_iff, hf]

/-- If the images under `f` of a list's elements are pairwise distinct, at
most one element maps to any given value. -/
theorem countP_map_eq_le_one {α β : Type} [BEq β] [LawfulBEq β]
    (f : α → β) (t : β) :
    ∀ l : List α, (l.map f).Nodup → l.countP (fun a => f a == t) ≤ 1 := by
  intro l
  induction l with
  | nil => intro _; simp
  | cons a as ih =>
      intro h
      rw [List.map_cons, List.nodup_cons] at h
      obtain ⟨ha, has⟩ := h
      rw [List.countP_cons]
      by_cases hft : (f a == t) = true
      · have hzero : as.countP (fun a' => f a' == t) = 0 := by
          rw [List.countP_eq_zero]
          intro a' ha' hfa'
          exact ha (by
            rw [eq_of_beq hft, ← eq_of_beq hfa']
            exact List.mem_map.mpr ⟨a', ha', rfl⟩)
        simp [hzero, hft]
      · simpa [hft] using ih has

/-- After a successful sync of `leads` into `sheet`, every incoming token
is present in the resulting sheet, so a second pass filters every lead
out. -/
theorem filter_after_sync_eq_nil (sheet : List (List String)) (leads : List Lead) :
    leads.filter (fun l =>
      !(((sheet ++ (leads.filter (fun l' =>
            !((sheet.map row_token).contains (lead_token l')))).map row_data).map
          row_token).contains (lead_token l))) = [] := by
  rw [List.filter_eq_nil_iff]
  intro l hl
  simp
  intro hnot
  exact ⟨l, hl, hnot, rfl⟩

/-- C1, counterexample: with existing tokens {"A"} and incoming tokens
["A", "B", "B"], the reported count is not 1.  The loop never adds the
first "B"'s token to the pre-read token set, so the second "B" is queued
as well and the count is 2. -/
theorem C1_counterexample :
    ¬ ((sync_to_google_sheets true true sheetWithA
          [leadTok "A", leadTok "B", leadTok "B"]).2 = 1) := by
  decide

/-- C1 (amended): with existing tokens {"A"} and incoming tokens
["A", "B", "B"], both occurrences of token "B" are appended, in order,
and the reported count is 2 — deduplication is only against the tokens
read before the loop, not within the incoming batch. -/
theorem C1_amended_sync_count :
    sync_to_google_sheets true true sheetWithA [leadTok "A", leadTok "B", leadTok "B"] =
      (sheetWithA ++ [row_data (leadTok "B"), row_data (leadTok "B")], 2) := by
  decide

/-- C2, counterexample: syncing two incoming leads sharing token "B" into
the empty sheet (which trivially satisfies the at-most-once invariant)
produces a sheet in which "B" appears twice. -/
theorem C2_counterexample :
    ¬ (count_token
        (sync_to_google_sheets true true [] [leadTok "B", leadTok "B"]).1 "B" ≤ 1) := by
  decide

/-- C2 (amended): provided the incoming leads carry pairwise distinct
request tokens, a sync step with a successful read preserves the
invariant that a given request token appears in the sheet at most once
(whatever the outcome of the append call). -/
theorem C2_token_at_most_once (sheet : List (List String)) (leads : List Lead)
    (appendOk : Bool)
    (hsheet : ∀ t, count_token sheet t ≤ 1)
    (hleads : (leads.map lead_token).Nodup) :
    ∀ t, count_token (sync_to_google_sheets true appendOk sheet leads).1 t ≤ 1 := by
  intro t
  cases appendOk with
  | false =>
      have h1 : (sync_to_google_sheets true false sheet leads).1 = sheet := by
        simp only [sync_to_google_sheets]
        by_cases h : (sync_new_rows (existing_tokens_of sheet) leads).1.isEmpty <;>
          simp [h]
      rw [h1]
      exact hsheet t
  | true =>
      rw [sync_ok_run]
      simp only [count_token, List.countP_append, List.countP_map]
      have hcomp : ((fun r => row_token r == t) ∘ row_data) =
          (fun l => lead_token l == t) := by
        funext l
        simp [Function.comp, row_token_row_data]
      rw [hcomp]
      by_cases hmem : t ∈ sheet.map row_token
      · have hzero : (leads.filter
            (fun l => !((sheet.map row_token).contains (lead_token l)))).countP
              (fun l => lead_token l == t) = 0 := by
          rw [List.countP_eq_zero]
          intro l hl hlt
          have hfl := List.mem_filter.mp hl
          have : lead_token l ∉ sheet.map row_token := by
            simpa using hfl.2
          exact this (by rw [eq_of_beq hlt]; exact hmem)
        rw [hzero]
        simpa [count_token] using hsheet t
      · have hzero : sheet.countP (fun r => row_token r == t) = 0 := by
          rw [List.countP_eq_zero]
          intro r hr hrt
          exact hmem (by rw [← eq_of_beq hrt]; exact List.mem_map.mpr ⟨r, hr, rfl⟩)
        rw [hzero, Nat.zero_add]
        calc (leads.filter
              (fun l => !((sheet.map row_token).contains (lead_token l)))).countP
                (fun l => lead_token l == t)
            ≤ leads.countP (fun l => lead_token l == t) :=
              (List.filter_sublist leads).countP_le _
          _ ≤ 1 := countP_map_eq_le_one lead_token t leads hleads

/-- Witness for C2's amended theorem on a concrete sheet and lead list. -/
theorem C2_token_at_most_once_witness :
    count_token (sync_to_google_sheets true true [] [leadTok "B"]).1 "B" ≤ 1 :=
  C2_token_at_most_once [] [leadTok "B"] true
    (fun t => by simp [count_token]) (by simp) "B"

/-- C3, counterexample: the claim "for every integer `communications_count <= 0`
the base score is 3" is false — for `communications_count = -1` the
`if/elif/else` falls through to the `else` branch and the base score is 8. -/
theorem C3_counterexample :
    ¬ (∀ c : Int, c ≤ 0 → (base_score_rec c).1 = 3) :=
  fun h => absurd (h (-1) (by decide)) (by decide)

/-- C3 (amended): the base score before status adjustment is 3 exactly when
`communications_count == 0`, 6 exactly when it `== 1`, and 8 for every other
integer (including negative values, which fall into the `else` branch). -/
theorem C3_base_score_cases (c : Int) :
    (c = 0 → base_score_rec c = (3, "No response from agent yet")) ∧
    (c = 1 → base_score_rec c = (6, "Initial contact made, needs follow-up")) ∧
    (c ≠ 0 → c ≠ 1 → base_score_rec c = (8, "Active communication maintained")) := by
  refine ⟨fun h => ?_, fun h => ?_, fun h0 h1 => ?_⟩
  · simp [base_score_rec, h]
  · simp [base_score_rec, h]
  · simp [base_score_rec, h0, h1]

/-- Witness for C3's amended theorem at concrete inputs. -/
theorem C3_base_score_cases_witness :
    base_score_rec 0 = (3, "No response from agent yet") ∧
    base_score_rec 1 = (6, "Initial contact made, needs follow-up") ∧
    base_score_rec (-1) = (8, "Active communication maintained") :=
  ⟨(C3_base_score_cases 0).1 rfl,
   (C3_base_score_cases 1).2.1 rfl,
   (C3_base_score_cases (-1)).2.2 (by decide) (by decide)⟩

/-- C4: if `lead_status` contains "confirmed" (case-insensitively), the final
score is `min 10 (base + 2)` with recommendation "Lead successfully
converted"; otherwise, if it contains "new" and `communications_count > 0`,
the final score is `max 1 (base - 1)` with recommendation "Response needed
for new lead".  The "confirmed" rule takes precedence. -/
theorem C4_status_adjustment (c : Int) (s : String) :
    (strIn "confirmed" (lowerStr s) = true →
      score_sales_agent c (some s) =
        (min 10 ((base_score_rec c).1 + 2), "Lead successfully converted")) ∧
    (strIn "confirmed" (lowerStr s) = false →
      strIn "new" (lowerStr s) = true → 0 < c →
      score_sales_agent c (some s) =
        (max 1 ((base_score_rec c).1 - 1), "Response needed for new lead")) := by
  constructor
  · intro h
    simp [score_sales_agent, h]
  · intro h1 h2 h3
    simp [score_sales_agent, h1, h2, h3]

/-- Witness for C4 at concrete inputs (one for each rule). -/
theorem C4_status_adjustment_witness :
    (strIn "confirmed" (lowerStr "Confirmed") = true ∧
      score_sales_agent 2 (some "Confirmed") =
        (min 10 ((base_score_rec 2).1 + 2), "Lead successfully converted")) ∧
    (strIn "confirmed" (lowerStr "New Request") = false ∧
      score_sales_agent 1 (some "New Request") =
        (max 1 ((base_score_rec 1).1 - 1), "Response needed for new lead")) :=
  ⟨⟨by decide, (C4_status_adjustment 2 "Confirmed").1 (by decide)⟩,
   ⟨by decide,
    (C4_status_adjustment 1 "New Request").2 (by decide) (by decide) (by decide)⟩⟩

/-- C5: the prerequisite check returns `false` exactly when one of its
checks fails: missing credentials file, unparsable credentials file, a
missing required package, or the connectivity probe raising (not
completing within the timeout).  In particular each such single failure
forces `false`, and nothing else does. -/
theorem C5_prereq_fail_iff (env : PrereqEnv) :
    check_prerequisites env = false ↔
      (env.service_account_file_exists = false ∨
       env.service_account_valid_json = false ∨
       (∃ p ∈ required_packages, env.package_available p = false) ∨
       env.connectivity = ConnOutcome.exn) := by
  obtain ⟨fe, vj, avail, conn⟩ := env
  simp only [check_prerequisites]
  cases fe
  · simp
  · cases vj
    · simp
    · cases conn with
      | exn => simp
      | response s =>
          by_cases hall : required_packages.all avail = true
          · simp only [hall]
            simp only [List.all_eq_true] at hall
            simp
            intro p hp
            exact hall p hp
          · simp only [Bool.not_eq_true] at hall
            simp only [hall]
            simp only [List.all_eq_false] at hall
            simp
            obtain ⟨p, hp, hap⟩ := hall
            exact ⟨p, hp, by simpa using hap⟩

/-- Witness for C5: a single missing package forces the check to fail. -/
theorem C5_prereq_fail_iff_witness :
    check_prerequisites prereqEnvMissingPackage = false :=
  (C5_prereq_fail_iff prereqEnvMissingPackage).mpr
    (Or.inr (Or.inr (Or.inl ⟨"gspread", by simp [required_packages], rfl⟩)))

/-- C6: called with `""` or `"N/A"`, the resolver returns the all-`"N/A"`
triple without issuing any network call; for every other input, a non-200
status or a transport error also yields the all-`"N/A"` triple (and never
propagates an error). -/
theorem C6_geolocation_guard (net : String → HttpOutcome) (ip : String) :
    (get_ip_geolocation "" net = (geoNA, false) ∧
     get_ip_geolocation "N/A" net = (geoNA, false)) ∧
    (ip ≠ "" → ip ≠ "N/A" →
      (∀ status json, status ≠ 200 →
        net (geo_url ip) = HttpOutcome.response status json →
        get_ip_geolocation ip net = (geoNA, true)) ∧
      (net (geo_url ip) = HttpOutcome.exn →
        get_ip_geolocation ip net = (geoNA, true))) := by
  refine ⟨⟨rfl, rfl⟩, fun h1 h2 => ⟨fun status json hs hnet => ?_, fun hnet => ?_⟩⟩
  · rw [get_ip_geolocation, if_neg (not_or.mpr ⟨h1, h2⟩), hnet]
    simp [hs]
  · rw [get_ip_geolocation, if_neg (not_or.mpr ⟨h1, h2⟩), hnet]

/-- Witness for C6 at a concrete IP, for both the non-200 and the
exception failure modes. -/
theorem C6_geolocation_guard_witness :
    get_ip_geolocation "8.8.8.8" (fun _ => HttpOutcome.response 500 []) =
      (geoNA, true) ∧
    get_ip_geolocation "8.8.8.8" (fun _ => HttpOutcome.exn) = (geoNA, true) :=
  ⟨((C6_geolocation_guard (fun _ => HttpOutcome.response 500 []) "8.8.8.8").2
      (by decide) (by decide)).1 500 [] (by decide) rfl,
   ((C6_geolocation_guard (fun _ => HttpOutcome.exn) "8.8.8.8").2
      (by decide) (by decide)).2 rfl⟩

/-- C7: the three documented concrete evaluations of the profitability
checker — solo only; all three tags in order; no tags at all. -/
theorem C7_profitability_cases :
    check_profitability [("pax", "1"), ("client_name", "City Tour")] =
      "Solo traveler (1 PAX)" ∧
    check_profitability [("pax", "1"), ("client_name", "Shore Excursion Day Trip")] =
      "Solo traveler (1 PAX); Shore excursion; Short duration trip" ∧
    check_profitability [("pax", "4"), ("client_name", "Grand Nile Cruise")] =
      "No issues identified" := by
  refine ⟨?_, ?_, ?_⟩ <;> decide

/-- C8: the header initializer writes exactly the 55 documented header
strings (regardless of the sheet's prior content), and for every lead the
sync row builder produces a positional row of exactly 55 fields in the
same column order — in particular the "Request Token" column of a built
row carries the lead's own token. -/
theorem C8_schema_width :
    (∀ prior, setup_exact_order_headers prior = [exact_order_headers]) ∧
    exact_order_headers.length = 55 ∧
    (∀ lead : Lead, (row_data lead).length = 55) ∧
    (∀ lead : Lead, row_token (row_data lead) = lead_token lead) :=
  ⟨fun _ => rfl, rfl, fun _ => rfl, fun _ => rfl⟩

/-- C9: running the sync a second time with identical lead data, on the
sheet produced by a successful first run, appends no row and reports
count 0 — every incoming token is already present. -/
theorem C9_sync_idempotent (sheet : List (List String)) (leads : List Lead) :
    sync_to_google_sheets true true
        ((sync_to_google_sheets true true sheet leads).1) leads =
      ((sync_to_google_sheets true true sheet leads).1, 0) := by
  rw [sync_ok_run sheet leads]
  dsimp only
  rw [sync_ok_run, filter_after_sync_eq_nil sheet leads]
  simp

/-- C10: on the non-error path the scorer never returns the initial default
pair `(5, "Standard performance")`; the score is always one of
3, 5, 6, 7, 8, 10 and the recommendation one of the five documented
strings, for every integer count and every `lead_status` (including
`None`). -/
theorem C10_score_range (c : Int) (ls : Option String) :
    score_sales_agent c ls ≠ (5, "Standard performance") ∧
    ((score_sales_agent c ls).1 = 3 ∨ (score_sales_agent c ls).1 = 5 ∨
      (score_sales_agent c ls).1 = 6 ∨ (score_sales_agent c ls).1 = 7 ∨
      (score_sales_agent c ls).1 = 8 ∨ (score_sales_agent c ls).1 = 10) ∧
    ((score_sales_agent c ls).2 = "No response from agent yet" ∨
      (score_sales_agent c ls).2 = "Initial contact made, needs follow-up" ∨
      (score_sales_agent c ls).2 = "Active communication maintained" ∨
      (score_sales_agent c ls).2 = "Lead successfully converted" ∨
      (score_sales_agent c ls).2 = "Response needed for new lead") := by
  have hb : (base_score_rec c = (3, "No response from agent yet") ∧ c = 0) ∨
      base_score_rec c = (6, "Initial contact made, needs follow-up") ∨
      base_score_rec c = (8, "Active communication maintained") := by
    by_cases h0 : c = 0
    · exact Or.inl ⟨by simp [base_score_rec, h0], h0⟩
    · by_cases h1 : c = 1
      · exact Or.inr (Or.inl (by simp [base_score_rec, h0, h1]))
      · exact Or.inr (Or.inr (by simp [base_score_rec, h0, h1]))
  by_cases hc : strIn "confirmed" (lowerStr (ls.getD "")) = true
  · rcases hb with ⟨hb, -⟩ | hb | hb <;>
      simp [score_sales_agent, hc, hb]
  · by_cases hn :
        (strIn "new" (lowerStr (ls.getD "")) && decide (c > 0)) = true
    · rcases hb with ⟨hb, h0⟩ | hb | hb
      · exfalso
        have := (Bool.and_eq_true _ _).mp hn
        rw [h0] at this
        exact absurd this.2 (by decide)
      · simp [score_sales_agent, hc, hn, hb]
      · simp [score_sales_agent, hc, hn, hb]
    · rcases hb with ⟨hb, -⟩ | hb | hb <;>
        simp [score_sales_agent, hc, hn, hb]
